import Mathlib

/-!
Verification of the Nivaran front-end's live-tracking page and report form.

The definitions below are a shallow embedding of the TypeScript source:
`haversineMeters`, the `TrackingPage` state (React `useState`/`useRef` cells
become record fields), its event handlers (`computeRouteFrom`, the
`watchPosition` success handler, the initialization effect, the
watch-lifecycle effect with its React cleanup), and the report page's
`handleSubmit`.  JavaScript numbers are modelled as real numbers; timestamps
as integers (milliseconds); nullable values as `Option`; the external calls
(directions requests, geolocation subscribe/unsubscribe, toasts) as an
explicit effect list; the `destination!` non-null assertion as an `Option`
result where `none` marks the would-be null dereference.
-/

/-- A latitude/longitude pair, as the `{ lat, lng }` objects of the source. -/
structure Coord where
  lat : ℝ
  lng : ℝ

/-- `toRad` from `haversineMeters`: `(v * Math.PI) / 180`. -/
noncomputable def toRad (v : ℝ) : ℝ := v * Real.pi / 180

/-- `Math.atan2 y x`, modelled as the argument of the complex number `x + y*i`. -/
noncomputable def atan2 (y x : ℝ) : ℝ := Complex.arg ⟨x, y⟩

/-- `haversineMeters` from the tracking page: great-circle distance in meters. -/
noncomputable def haversineMeters (a b : Coord) : ℝ :=
  let R : ℝ := 6371000
  let dLat := toRad (b.lat - a.lat)
  let dLon := toRad (b.lng - a.lng)
  let lat1 := toRad a.lat
  let lat2 := toRad b.lat
  let sinDlat := Real.sin (dLat / 2)
  let sinDlon := Real.sin (dLon / 2)
  let aHarv := sinDlat * sinDlat + Real.cos lat1 * Real.cos lat2 * sinDlon * sinDlon
  let c := 2 * atan2 (Real.sqrt aHarv) (Real.sqrt (1 - aHarv))
  R * c

lemma atan2_nonneg_of_nonneg {y x : ℝ} (hy : 0 ≤ y) : 0 ≤ atan2 y x := by
  unfold atan2
  exact Complex.arg_nonneg_iff.mpr hy

lemma atan2_zero_one : atan2 0 1 = 0 := by
  unfold atan2
  have h : (⟨1, 0⟩ : ℂ) = 1 := by
    apply Complex.ext <;> simp
  rw [h, Complex.arg_one]

lemma haversineMeters_nonneg (a b : Coord) : 0 ≤ haversineMeters a b := by
  simp only [haversineMeters]
  refine mul_nonneg (by norm_num) (mul_nonneg (by norm_num) ?_)
  exact atan2_nonneg_of_nonneg (Real.sqrt_nonneg _)

lemma haversineMeters_self (a : Coord) : haversineMeters a a = 0 := by
  unfold haversineMeters
  simp [toRad, atan2_zero_one]

/-- `routeInfo` state: summary of the first route's first leg
(`{ distanceText, durationText }`, both optional as `leg.distance?.text`). -/
structure RouteSummary where
  distanceText : Option String
  durationText : Option String
deriving DecidableEq

/-- One leg of a directions result, carrying the optional `distance.text` and
`duration.text` the page reads. -/
structure DirectionsLeg where
  distanceText : Option String
  durationText : Option String
deriving DecidableEq

/-- A directions-provider result: a list of routes, each a list of legs. -/
structure DirectionsResult where
  routes : List (List DirectionsLeg)
deriving DecidableEq

/-- `g.maps.TravelMode` values used by the page. -/
inductive TravelMode where
  | driving
deriving DecidableEq

/-- The request object passed to `directionsServiceRef.current.route`. -/
structure RouteRequest where
  origin : Coord
  destination : Coord
  travelMode : TravelMode
  provideRouteAlternatives : Bool
  trafficModel : String

/-- Calls the tracking page makes into the outside world. -/
inductive Eff where
  | routeReq (r : RouteRequest)
  | watchStart (id : ℕ)
  | clearWatch (id : ℕ)
  | geoOneShot (timeoutMs : ℕ)
  | toastMsg (m : String)

def isRouteReqEff : Eff → Bool
  | .routeReq _ => true
  | _ => false

def countRouteReqs (l : List Eff) : ℕ := (l.filter isRouteReqEff).length

def isWatchStart : Eff → Bool
  | .watchStart _ => true
  | _ => false

def isClearWatch : Eff → Bool
  | .clearWatch _ => true
  | _ => false

def countStarts (l : List Eff) : ℕ := (l.filter isWatchStart).length

def countClears (l : List Eff) : ℕ := (l.filter isClearWatch).length

/-- The `TrackingPage` component state: every `useState` cell and `useRef`
cell of the source, with object refs to Google Maps objects replaced by
booleans recording whether the ref is non-null.  `hasCleanup` records whether
the live-tracking `useEffect` currently has a registered cleanup function. -/
structure TrackState where
  origin : Option Coord
  destination : Option Coord
  loading : Bool
  mapReady : Bool
  routeInfo : Option RouteSummary
  renderedRoute : Option DirectionsResult
  error : Option String
  liveTracking : Bool
  watchId : Option ℕ
  lastPosition : Option Coord
  lastRouteTimestamp : ℤ
  mapInitialized : Bool
  directionsReady : Bool
  rendererReady : Bool
  currentMarker : Bool
  destMarker : Bool
  hasCleanup : Bool

/-- Component state on mount, seeded from the URL query parameters:
`destination` from `lat`/`lng`, `origin` from `ngo_lat`/`ngo_lng`. -/
def initState (dest0 origin0 : Option Coord) : TrackState where
  origin := origin0
  destination := dest0
  loading := false
  mapReady := false
  routeInfo := none
  renderedRoute := none
  error := none
  liveTracking := false
  watchId := none
  lastPosition := none
  lastRouteTimestamp := 0
  mapInitialized := false
  directionsReady := false
  rendererReady := false
  currentMarker := false
  destMarker := false
  hasCleanup := false

/-- The result callback passed to `directionsServiceRef.current.route`.
On `"OK"` it renders the result and replaces `routeInfo` with the first
route's first leg (the `try`/`catch` around `result.routes[0].legs[0]`
becomes an `Option` chain ending in `routeInfo := none`); otherwise it sets
the error string and leaves `routeInfo` and the rendered route alone. -/
def routeCallback (s : TrackState) (result : DirectionsResult) (status : String) : TrackState :=
  let s1 := { s with loading := false }
  if status = "OK" then
    let s2 := { s1 with renderedRoute := some result }
    match result.routes.head?.bind List.head? with
    | some leg => { s2 with routeInfo := some ⟨leg.distanceText, leg.durationText⟩ }
    | none => { s2 with routeInfo := none }
  else
    { s1 with error := some ("Could not compute route: " ++ status) }

/-- `computeRouteFrom(usedOrigin)`: bails out with an error when the Maps API
is unavailable, otherwise creates the directions service/renderer if missing,
sets `loading`, and issues one driving request with no alternatives.
`none` marks the `destination!` dereference hitting a null destination. -/
def computeRouteFrom (s : TrackState) (usedOrigin : Coord) (mapsAvail : Bool) :
    Option (TrackState × List Eff) :=
  if mapsAvail = false then
    some ({ s with error := some "Google Maps is not available." }, [])
  else
    match s.destination with
    | none => none
    | some d =>
        some ({ s with directionsReady := true, rendererReady := true, loading := true },
          [Eff.routeReq
            { origin := usedOrigin
              destination := d
              travelMode := TravelMode.driving
              provideRouteAlternatives := false
              trafficModel := "bestguess" }])

/-- The recompute guard of the `watchPosition` success handler:
`moved > 20 || sinceLastRoute > 10000`, where `moved` is `Infinity` when no
previous position is recorded. -/
def recomputeCond (prev : Option Coord) (pos : Coord) (now lastTs : ℤ) : Prop :=
  match prev with
  | none => True
  | some p => haversineMeters p pos > 20 ∨ now - lastTs > 10000

open Classical in
/-- The `watchPosition` success handler: records the new position, updates the
origin and the live marker, and, when the recompute guard fires, stamps
`lastRouteTimestampRef` with `now` and — only if both the directions service
and the map object already exist — calls `computeRouteFrom`. -/
noncomputable def watchSuccess (s : TrackState) (pos : Coord) (now : ℤ) (mapsAvail : Bool) :
    Option (TrackState × List Eff) :=
  let prev := s.lastPosition
  let s1 := { s with lastPosition := some pos, origin := some pos,
                     currentMarker := s.currentMarker || mapsAvail }
  if recomputeCond prev pos now s.lastRouteTimestamp then
    let s2 := { s1 with lastRouteTimestamp := now }
    if s2.directionsReady && s2.mapInitialized then
      computeRouteFrom s2 pos mapsAvail
    else
      some (s2, [])
  else
    some (s1, [])

/-- State after the success handler runs (identity on the impossible crash). -/
noncomputable def sampleNext (s : TrackState) (pos : Coord) (now : ℤ) (mapsAvail : Bool) :
    TrackState :=
  match watchSuccess s pos now mapsAvail with
  | some r => r.1
  | none => s

/-- Effects emitted by one run of the success handler. -/
noncomputable def sampleEffs (s : TrackState) (pos : Coord) (now : ℤ) (mapsAvail : Bool) :
    List Eff :=
  match watchSuccess s pos now mapsAvail with
  | some r => r.2
  | none => []

/-- Outcome of the one-shot `getCurrentPosition` attempt:
geolocation missing from the browser, the promise rejecting
(permission denied or the 8-second timeout), or a position. -/
inductive GeoOutcome where
  | unavailable
  | failed
  | success (c : Coord)

/-- The one-shot origin block at the top of `initialize`: when `origin` is
null and geolocation exists, await one `getCurrentPosition` with
`{ timeout: 8000 }`, storing the result into `origin`/`lastPositionRef` on
success and leaving `origin` null on failure. -/
def oneShotOrigin (s : TrackState) (geo : GeoOutcome) : TrackState × List Eff :=
  match s.origin, geo with
  | none, .success c =>
      ({ s with origin := some c, lastPosition := some c, loading := false },
       [Eff.geoOneShot 8000])
  | none, .failed => ({ s with loading := false }, [Eff.geoOneShot 8000])
  | none, .unavailable => (s, [])
  | some _, _ => (s, [])

/-- One run of the `initialize` effect (deps `[mapReady, destination, origin]`).
Mirrors the source: bail out unless the map script is ready and a destination
exists; run the one-shot origin block; then (the closure still holding the
origin value captured at entry) create the map, renderer and service, and
either compute a route from the captured origin or place a destination-only
marker. -/
def initRun (s : TrackState) (geo : GeoOutcome) (mapsAvail : Bool) :
    Option (TrackState × List Eff) :=
  if !s.mapReady || s.destination.isNone then
    some (s, [])
  else
    let origin0 := s.origin
    let r1 : TrackState × List Eff := oneShotOrigin s geo
    if mapsAvail = false then
      some ({ r1.1 with error := some "Google Maps is not available." }, r1.2)
    else
      let s2 := { r1.1 with mapInitialized := true, directionsReady := true,
                            rendererReady := true,
                            currentMarker := r1.1.currentMarker || origin0.isSome }
      match origin0 with
      | some o => (computeRouteFrom s2 o mapsAvail).map fun r => (r.1, r1.2 ++ r.2)
      | none => some ({ s2 with destMarker := true }, r1.2)

/-- State after one run of the `initialize` effect. -/
def initNext (s : TrackState) (geo : GeoOutcome) (mapsAvail : Bool) : TrackState :=
  match initRun s geo mapsAvail with
  | some r => r.1
  | none => s

/-- Effects emitted by one run of the `initialize` effect. -/
def initEffs (s : TrackState) (geo : GeoOutcome) (mapsAvail : Bool) : List Eff :=
  match initRun s geo mapsAvail with
  | some r => r.2
  | none => []

/-- Cleanup returned by the watching branch of the live-tracking effect:
`clearWatch` on the current watch id, if any, then null the ref. -/
def cleanupWatch (s : TrackState) : TrackState × List Eff :=
  match s.watchId with
  | some id => ({ s with watchId := none, hasCleanup := false }, [Eff.clearWatch id])
  | none => ({ s with hasCleanup := false }, [])

/-- Body of the live-tracking effect (deps `[liveTracking]`): when tracking is
off, clear any watcher and stop; when geolocation is missing, toast and turn
tracking back off; otherwise start a watch and register the cleanup. -/
def watchBody (s : TrackState) (geoAvail : Bool) (newId : ℕ) : TrackState × List Eff :=
  if s.liveTracking = false then
    match s.watchId with
    | some id => ({ s with watchId := none, hasCleanup := false }, [Eff.clearWatch id])
    | none => ({ s with hasCleanup := false }, [])
  else if geoAvail = false then
    ({ s with liveTracking := false, hasCleanup := false },
     [Eff.toastMsg "Geolocation not available in this browser."])
  else
    ({ s with watchId := some newId, hasCleanup := true }, [Eff.watchStart newId])

/-- One React effect cycle for the live-tracking effect: run the previously
registered cleanup, if any, then the effect body. -/
def effectCycle (s : TrackState) (geoAvail : Bool) (newId : ℕ) : TrackState × List Eff :=
  let r1 := if s.hasCleanup then cleanupWatch s else (s, [])
  let r2 := watchBody r1.1 geoAvail newId
  (r2.1, r1.2 ++ r2.2)

/-- The "Start/Stop live tracking" button: flip `liveTracking`, run the effect
cycle, and, if the body itself flipped the flag back (geolocation missing),
run the follow-up cycle that flip schedules. -/
def toggleStep (s : TrackState) (geoAvail : Bool) (newId : ℕ) : TrackState × List Eff :=
  let s1 := { s with liveTracking := !s.liveTracking }
  let r1 := effectCycle s1 geoAvail newId
  if r1.1.liveTracking = s1.liveTracking then r1
  else
    let r2 := effectCycle r1.1 geoAvail newId
    (r2.1, r1.2 ++ r2.2)

/-- The `watchPosition` error handler: toast, then `setLiveTracking(false)`,
whose state change runs the effect cycle. -/
def failStep (s : TrackState) : TrackState × List Eff :=
  let s1 := { s with liveTracking := false }
  let r := effectCycle s1 true 0
  (r.1, Eff.toastMsg "Unable to get live position (permission denied or unavailable)." :: r.2)

/-- The events a tracking session can receive. -/
inductive Event where
  | scriptLoaded
  | initEffect (geo : GeoOutcome) (mapsAvail : Bool)
  | toggleLive (geoAvail : Bool) (newId : ℕ)
  | sample (pos : Coord) (now : ℤ) (mapsAvail : Bool)
  | streamFail
  | routeResult (res : DirectionsResult) (status : String)

/-- One step of the tracking session.  `none` marks the only possible crash:
the `destination!` dereference inside `computeRouteFrom` hitting null.
Position samples and stream errors are delivered only while a watch is
active, matching the browser's contract for `watchPosition`. -/
noncomputable def step (s : TrackState) : Event → Option (TrackState × List Eff)
  | .scriptLoaded =>
      if s.destination.isNone then
        let msg := "Destination coordinates are missing. Open this page with ?lat=<lat>&lng=<lng>."
        some ({ s with error := some msg }, [])
      else
        some ({ s with mapReady := true }, [])
  | .initEffect geo mapsAvail => initRun s geo mapsAvail
  | .toggleLive geoAvail newId => some (toggleStep s geoAvail newId)
  | .sample pos now mapsAvail =>
      if s.liveTracking && s.watchId.isSome then watchSuccess s pos now mapsAvail
      else some (s, [])
  | .streamFail =>
      if s.liveTracking && s.watchId.isSome then some (failStep s)
      else some (s, [])
  | .routeResult res status => some (routeCallback s res status, [])

/-- Run a list of events, accumulating emitted effects; `none` if any step
crashes. -/
noncomputable def runTrace (s : TrackState) : List Event → Option (TrackState × List Eff)
  | [] => some (s, [])
  | e :: t =>
      match step s e with
      | none => none
      | some r =>
          match runTrace r.1 t with
          | none => none
          | some r2 => some (r2.1, r.2 ++ r2.2)

/-- Component teardown: React runs the live-tracking effect's registered
cleanup, if any. -/
def unmountCleanup (s : TrackState) : TrackState × List Eff :=
  if s.hasCleanup then cleanupWatch s else (s, [])

/-- States of the tracking session reachable from the mount state. -/
inductive Reachable (dest0 origin0 : Option Coord) : TrackState → Prop where
  | init : Reachable dest0 origin0 (initState dest0 origin0)
  | next {s e s' effs} : Reachable dest0 origin0 s → step s e = some (s', effs) →
      Reachable dest0 origin0 s'

/-- The report form's `formData` state object. -/
structure ReportForm where
  description : String
  severity : String
  contactName : String
  contactPhone : String
  location : String

/-- Report page component state touched by `handleSubmit`
(`imageFile` abstracted to whether a file is present). -/
structure ReportState where
  form : ReportForm
  hasImageFile : Bool
  isSubmitting : Bool
  submitted : Bool
  isAnalyzing : Bool
  hasDetectionResult : Bool

/-- Response of the `POST /report-case` call, or a network error. -/
inductive BackendOutcome where
  | networkError
  | response (ok : Bool) (status : String) (message : Option String)

/-- Environment of one `handleSubmit` run: the outcome of the coordinate
regex on `formData.location`, whether the Google key / backend URL are
configured, the geocoding outcome, whether the image file reads as base64,
and the backend's answer.  The regex match and geocode results are inputs
rather than re-implemented string matching; only their presence or absence
flows into the submit logic. -/
structure SubmitEnv where
  coordMatch : Option (ℚ × ℚ)
  googleKeyConfigured : Bool
  geocodeOutcome : Option (ℚ × ℚ)
  imageReadOk : Bool
  backendConfigured : Bool
  backendOutcome : BackendOutcome

/-- The JSON body of the `POST /report-case` request. -/
structure ReportPayload where
  description : String
  severity : String
  contactName : String
  contactPhone : String
  location : String
  latitude : Option ℚ
  longitude : Option ℚ

/-- Outgoing calls of `handleSubmit`: toasts, the Google geocode fetch, and
the backend `report-case` fetch. -/
inductive SubmitEff where
  | toast (msg : String)
  | geocodeRequest (address : String)
  | backendRequest (p : ReportPayload)

def isBackendReq : SubmitEff → Bool
  | .backendRequest _ => true
  | _ => false

def hasBackendReq (l : List SubmitEff) : Bool := l.any isBackendReq

/-- The report form's `handleSubmit`: four early-return validations (image,
location, phone, severity — empty strings are falsy), then the coordinate
determination (regex match, else geocode when a Google key exists), the
image-to-base64 conversion, the backend-configured check, the
`POST /report-case` request, and the response handling. -/
def handleSubmit (st : ReportState) (env : SubmitEnv) : ReportState × List SubmitEff :=
  if st.hasImageFile = false then (st, [.toast "Please upload an image"])
  else if st.form.location = "" then (st, [.toast "Please provide a location"])
  else if st.form.contactPhone = "" then (st, [.toast "Please provide a contact phone number"])
  else if st.form.severity = "" then (st, [.toast "Please select severity level"])
  else
    let st1 := { st with isSubmitting := true, isAnalyzing := true, hasDetectionResult := false }
    let infoEff := SubmitEff.toast "Submitting report..."
    let geo : Option (ℚ × ℚ) × List SubmitEff :=
      match env.coordMatch with
      | some c => (some c, [])
      | none =>
          if env.googleKeyConfigured then
            (env.geocodeOutcome, [SubmitEff.geocodeRequest st.form.location])
          else (none, [])
    if env.imageReadOk = false then
      (st1, infoEff :: geo.2 ++ [.toast "Failed to read image file"])
    else if env.backendConfigured = false then
      (st1, infoEff :: geo.2 ++ [.toast "Backend API not configured (NEXT_PUBLIC_BACKEND_API)"])
    else
      let payload : ReportPayload :=
        { description := st.form.description
          severity := st.form.severity
          contactName := st.form.contactName
          contactPhone := st.form.contactPhone
          location := st.form.location
          latitude := geo.1.map Prod.fst
          longitude := geo.1.map Prod.snd }
      let reqEffs := infoEff :: geo.2 ++ [SubmitEff.backendRequest payload]
      match env.backendOutcome with
      | .networkError =>
          ({ st1 with isSubmitting := false, isAnalyzing := false },
           reqEffs ++ [.toast "Network error: failed to submit report"])
      | .response ok status msg =>
          let st2 := { st1 with isAnalyzing := false }
          if ok = false then
            ({ st2 with isSubmitting := false },
             reqEffs ++ [.toast "Failed to submit report"])
          else
            let st3 := { st2 with hasDetectionResult := true }
            if status = "invalid_image" then
              ({ st3 with isSubmitting := false },
               reqEffs ++ [.toast (msg.getD "This does not appear to be an animal")])
            else
              ({ st3 with isSubmitting := false, submitted := true },
               reqEffs ++ [.toast "Animal detected — case submitted"])

/-- The error message of the first failing validation of `handleSubmit`,
in the source's check order, or `none` when all four required inputs are
present. -/
def firstValidationError (st : ReportState) : Option String :=
  if st.hasImageFile = false then some "Please upload an image"
  else if st.form.location = "" then some "Please provide a location"
  else if st.form.contactPhone = "" then some "Please provide a contact phone number"
  else if st.form.severity = "" then some "Please select severity level"
  else none

lemma watchSuccess_pos (s : TrackState) (pos : Coord) (now : ℤ) (m : Bool)
    (h : recomputeCond s.lastPosition pos now s.lastRouteTimestamp) :
    watchSuccess s pos now m =
      if s.directionsReady && s.mapInitialized then
        computeRouteFrom
          { s with lastPosition := some pos, origin := some pos,
                   currentMarker := s.currentMarker || m, lastRouteTimestamp := now } pos m
      else
        some ({ s with lastPosition := some pos, origin := some pos,
                       currentMarker := s.currentMarker || m, lastRouteTimestamp := now }, []) := by
  simp only [watchSuccess]
  rw [if_pos h]

lemma watchSuccess_neg (s : TrackState) (pos : Coord) (now : ℤ) (m : Bool)
    (h : ¬ recomputeCond s.lastPosition pos now s.lastRouteTimestamp) :
    watchSuccess s pos now m =
      some ({ s with lastPosition := some pos, origin := some pos,
                     currentMarker := s.currentMarker || m }, []) := by
  simp only [watchSuccess]
  rw [if_neg h]

lemma computeRouteFrom_of_dest (s : TrackState) (o : Coord) (m : Bool) (d : Coord)
    (hdest : s.destination = some d) :
    computeRouteFrom s o m =
      if m = false then
        some ({ s with error := some "Google Maps is not available." }, [])
      else
        some ({ s with directionsReady := true, rendererReady := true, loading := true },
          [Eff.routeReq
            { origin := o
              destination := d
              travelMode := TravelMode.driving
              provideRouteAlternatives := false
              trafficModel := "bestguess" }]) := by
  unfold computeRouteFrom
  rw [hdest]

lemma computeRouteFrom_ne_none (s : TrackState) (o : Coord) (m : Bool)
    (hdest : s.destination.isSome = true) : computeRouteFrom s o m ≠ none := by
  unfold computeRouteFrom
  cases m
  · simp
  · cases hd : s.destination
    · rw [hd] at hdest
      simp at hdest
    · simp

lemma computeRouteFrom_shape {s : TrackState} {o : Coord} {m : Bool}
    {s' : TrackState} {effs : List Eff}
    (h : computeRouteFrom s o m = some (s', effs)) :
    s'.destination = s.destination ∧ s'.mapInitialized = s.mapInitialized ∧
    s'.watchId = s.watchId ∧ s'.hasCleanup = s.hasCleanup ∧
    s'.liveTracking = s.liveTracking ∧
    s'.lastRouteTimestamp = s.lastRouteTimestamp ∧
    s'.lastPosition = s.lastPosition ∧
    s'.origin = s.origin ∧ s'.mapReady = s.mapReady ∧
    countStarts effs = 0 ∧ countClears effs = 0 ∧
    (∀ q, Eff.routeReq q ∈ effs → s.destination = some q.destination ∧ q.origin = o) := by
  unfold computeRouteFrom at h
  cases m
  · simp only [if_pos rfl, Option.some.injEq, Prod.mk.injEq] at h
    obtain ⟨rfl, rfl⟩ := h
    simp [countStarts, countClears]
  · cases hd : s.destination
    · rw [hd] at h
      simp at h
    · rw [hd] at h
      simp only [Option.some.injEq, Prod.mk.injEq, reduceIte] at h
      obtain ⟨rfl, rfl⟩ := h
      refine ⟨rfl, rfl, rfl, rfl, rfl, rfl, rfl, rfl, rfl,
        by simp [countStarts, isWatchStart], by simp [countClears, isClearWatch], ?_⟩
      intro q hq
      simp only [List.mem_singleton, Eff.routeReq.injEq] at hq
      subst hq
      exact ⟨rfl, rfl⟩

lemma watchSuccess_shape {s : TrackState} {pos : Coord} {now : ℤ} {m : Bool}
    {s' : TrackState} {effs : List Eff}
    (h : watchSuccess s pos now m = some (s', effs)) :
    s'.destination = s.destination ∧ s'.mapInitialized = s.mapInitialized ∧
    s'.watchId = s.watchId ∧ s'.hasCleanup = s.hasCleanup ∧
    s'.liveTracking = s.liveTracking ∧ s'.mapReady = s.mapReady ∧
    s'.origin = some pos ∧ s'.lastPosition = some pos ∧
    countStarts effs = 0 ∧ countClears effs = 0 ∧
    (∀ q, Eff.routeReq q ∈ effs → s.destination = some q.destination ∧ q.origin = pos) := by
  by_cases hc : recomputeCond s.lastPosition pos now s.lastRouteTimestamp
  · rw [watchSuccess_pos s pos now m hc] at h
    by_cases hb : (s.directionsReady && s.mapInitialized) = true
    · rw [if_pos hb] at h
      obtain ⟨h1, h2, h3, h4, h5, h6, h7, h8, h9, h10, h11, h12⟩ := computeRouteFrom_shape h
      exact ⟨h1, h2, h3, h4, h5, h9, h8, h7, h10, h11, h12⟩
    · rw [if_neg hb, Option.some.injEq, Prod.mk.injEq] at h
      obtain ⟨rfl, rfl⟩ := h
      simp [countStarts, countClears]
  · rw [watchSuccess_neg s pos now m hc, Option.some.injEq, Prod.mk.injEq] at h
    obtain ⟨rfl, rfl⟩ := h
    simp [countStarts, countClears]

lemma routeCallback_fields (s : TrackState) (res : DirectionsResult) (status : String) :
    (routeCallback s res status).destination = s.destination ∧
    (routeCallback s res status).mapInitialized = s.mapInitialized ∧
    (routeCallback s res status).watchId = s.watchId ∧
    (routeCallback s res status).hasCleanup = s.hasCleanup ∧
    (routeCallback s res status).liveTracking = s.liveTracking ∧
    (routeCallback s res status).mapReady = s.mapReady ∧
    (routeCallback s res status).lastRouteTimestamp = s.lastRouteTimestamp ∧
    (routeCallback s res status).lastPosition = s.lastPosition ∧
    (routeCallback s res status).origin = s.origin := by
  unfold routeCallback
  by_cases h : status = "OK"
  · rw [if_pos h]
    cases res.routes.head?.bind List.head? <;> simp
  · rw [if_neg h]
    simp

lemma oneShotOrigin_shape (s : TrackState) (geo : GeoOutcome) :
    (oneShotOrigin s geo).1.destination = s.destination ∧
    (oneShotOrigin s geo).1.mapInitialized = s.mapInitialized ∧
    (oneShotOrigin s geo).1.watchId = s.watchId ∧
    (oneShotOrigin s geo).1.hasCleanup = s.hasCleanup ∧
    (oneShotOrigin s geo).1.liveTracking = s.liveTracking ∧
    (oneShotOrigin s geo).1.mapReady = s.mapReady ∧
    countStarts (oneShotOrigin s geo).2 = 0 ∧ countClears (oneShotOrigin s geo).2 = 0 ∧
    countRouteReqs (oneShotOrigin s geo).2 = 0 := by
  unfold oneShotOrigin
  cases ho : s.origin <;> cases geo <;>
    simp [countStarts, countClears, countRouteReqs, isWatchStart, isClearWatch, isRouteReqEff]

lemma countStarts_append (l1 l2 : List Eff) :
    countStarts (l1 ++ l2) = countStarts l1 + countStarts l2 := by
  simp [countStarts, List.filter_append]

lemma countClears_append (l1 l2 : List Eff) :
    countClears (l1 ++ l2) = countClears l1 + countClears l2 := by
  simp [countClears, List.filter_append]

lemma countRouteReqs_append (l1 l2 : List Eff) :
    countRouteReqs (l1 ++ l2) = countRouteReqs l1 + countRouteReqs l2 := by
  simp [countRouteReqs, List.filter_append]

lemma initRun_shape {s : TrackState} {geo : GeoOutcome} {m : Bool}
    {s' : TrackState} {effs : List Eff}
    (h : initRun s geo m = some (s', effs)) :
    s'.destination = s.destination ∧
    s'.watchId = s.watchId ∧ s'.hasCleanup = s.hasCleanup ∧
    s'.liveTracking = s.liveTracking ∧ s'.mapReady = s.mapReady ∧
    (s'.mapInitialized = true → s.mapInitialized = true ∨ s.destination.isSome = true) ∧
    countStarts effs = 0 ∧ countClears effs = 0 := by
  unfold initRun at h
  by_cases hg : (!s.mapReady || s.destination.isNone) = true
  · rw [if_pos hg, Option.some.injEq, Prod.mk.injEq] at h
    obtain ⟨rfl, rfl⟩ := h
    refine ⟨rfl, rfl, rfl, rfl, rfl, fun hmi => Or.inl hmi, ?_, ?_⟩ <;>
      simp [countStarts, countClears]
  · rw [if_neg hg] at h
    have hdest : s.destination.isSome = true := by
      cases hd : s.destination
      · rw [hd] at hg
        simp at hg
      · rfl
    obtain ⟨o1, o2, o3, o4, o5, o6, o7, o8, o9⟩ := oneShotOrigin_shape s geo
    by_cases hm : m = false
    · rw [if_pos hm, Option.some.injEq, Prod.mk.injEq] at h
      obtain ⟨rfl, rfl⟩ := h
      exact ⟨o1, o3, o4, o5, o6, fun _ => Or.inr hdest, o7, o8⟩
    · rw [if_neg hm] at h
      cases hoo : s.origin
      · rw [hoo] at h
        simp only [Option.some.injEq, Prod.mk.injEq] at h
        obtain ⟨rfl, rfl⟩ := h
        exact ⟨o1, o3, o4, o5, o6, fun _ => Or.inr hdest, o7, o8⟩
      · rw [hoo] at h
        rw [Option.map_eq_some'] at h
        obtain ⟨a, ha, hae⟩ := h
        obtain ⟨c1, c2, c3, c4, c5, c6, c7, c8, c9, c10, c11, c12⟩ := computeRouteFrom_shape ha
        obtain ⟨rfl, rfl⟩ := Prod.mk.injEq .. ▸ hae
        refine ⟨c1.trans o1, c3.trans o3, c4.trans o4, c5.trans o5, c9.trans o6,
          fun _ => Or.inr hdest, ?_, ?_⟩
        · rw [countStarts_append, o7, c10]
        · rw [countClears_append, o8, c11]

/-- 1 when a geolocation watch is active, else 0. -/
def watchBit (s : TrackState) : ℕ := if s.watchId.isSome then 1 else 0

/-- Bookkeeping invariant of the live-tracking effect: a cleanup is registered
exactly when a watch is active, and no watch survives tracking being off. -/
def WatchInv (s : TrackState) : Prop :=
  s.hasCleanup = s.watchId.isSome ∧ (s.liveTracking = false → s.watchId = none)

lemma cleanupWatch_spec (s : TrackState) :
    (cleanupWatch s).1 = { s with watchId := none, hasCleanup := false } ∧
    countStarts (cleanupWatch s).2 = 0 ∧
    countClears (cleanupWatch s).2 = watchBit s ∧
    countRouteReqs (cleanupWatch s).2 = 0 := by
  cases hw : s.watchId <;>
    simp [cleanupWatch, hw, watchBit, countStarts, countClears, countRouteReqs,
      isWatchStart, isClearWatch, isRouteReqEff]

lemma toggleStep_spec (s : TrackState) (g : Bool) (n : ℕ) (hw : WatchInv s) :
    WatchInv (toggleStep s g n).1 ∧
    countStarts (toggleStep s g n).2 + watchBit s =
      countClears (toggleStep s g n).2 + watchBit (toggleStep s g n).1 ∧
    (toggleStep s g n).1.destination = s.destination ∧
    (toggleStep s g n).1.mapInitialized = s.mapInitialized ∧
    (toggleStep s g n).1.mapReady = s.mapReady ∧
    countRouteReqs (toggleStep s g n).2 = 0 := by
  obtain ⟨hc, hlt⟩ := hw
  cases hl : s.liveTracking
  · have hwid : s.watchId = none := hlt hl
    have hcf : s.hasCleanup = false := by rw [hc, hwid]; rfl
    cases g <;>
      simp [toggleStep, effectCycle, watchBody, cleanupWatch, hl, hwid, hcf, WatchInv,
        watchBit, countStarts, countClears, countRouteReqs,
        isWatchStart, isClearWatch, isRouteReqEff]
  · cases hwid : s.watchId
    · have hcf : s.hasCleanup = false := by rw [hc, hwid]; rfl
      simp [toggleStep, effectCycle, watchBody, cleanupWatch, hl, hwid, hcf, WatchInv,
        watchBit, countStarts, countClears, countRouteReqs,
        isWatchStart, isClearWatch, isRouteReqEff]
    · have hct : s.hasCleanup = true := by rw [hc, hwid]; rfl
      simp [toggleStep, effectCycle, watchBody, cleanupWatch, hl, hwid, hct, WatchInv,
        watchBit, countStarts, countClears, countRouteReqs,
        isWatchStart, isClearWatch, isRouteReqEff]

lemma failStep_spec (s : TrackState) (hw : WatchInv s)
    (hwid : s.watchId.isSome = true) :
    WatchInv (failStep s).1 ∧
    countStarts (failStep s).2 + watchBit s =
      countClears (failStep s).2 + watchBit (failStep s).1 ∧
    (failStep s).1.destination = s.destination ∧
    (failStep s).1.mapInitialized = s.mapInitialized ∧
    (failStep s).1.mapReady = s.mapReady ∧
    countRouteReqs (failStep s).2 = 0 := by
  obtain ⟨hc, hlt⟩ := hw
  cases hwid2 : s.watchId
  · rw [hwid2] at hwid
    simp at hwid
  · have hct : s.hasCleanup = true := by rw [hc, hwid2]; rfl
    simp [failStep, effectCycle, watchBody, cleanupWatch, hwid2, hct, WatchInv,
      watchBit, countStarts, countClears, countRouteReqs,
      isWatchStart, isClearWatch, isRouteReqEff]

lemma watchBit_congr {s s' : TrackState} (h : s'.watchId = s.watchId) :
    watchBit s' = watchBit s := by
  unfold watchBit
  rw [h]

lemma WatchInv_of_preserved {s s' : TrackState} (hw : WatchInv s)
    (h1 : s'.watchId = s.watchId) (h2 : s'.hasCleanup = s.hasCleanup)
    (h3 : s'.liveTracking = s.liveTracking) : WatchInv s' := by
  refine ⟨?_, ?_⟩
  · rw [h1, h2]
    exact hw.1
  · intro hf
    rw [h1]
    exact hw.2 (by rw [← h3]; exact hf)

lemma initRun_ne_none (s : TrackState) (geo : GeoOutcome) (m : Bool) :
    initRun s geo m ≠ none := by
  unfold initRun
  by_cases hg : (!s.mapReady || s.destination.isNone) = true
  · rw [if_pos hg]
    simp
  · rw [if_neg hg]
    have hdest : s.destination.isSome = true := by
      cases hd : s.destination
      · rw [hd] at hg
        simp at hg
      · rfl
    by_cases hm : m = false
    · rw [if_pos hm]
      simp
    · rw [if_neg hm]
      rcases hoo : s.origin with _ | o0
      · simp
      · intro hcon
        simp only [Option.map_eq_none'] at hcon
        refine computeRouteFrom_ne_none _ o0 m ?_ hcon
        show (oneShotOrigin s geo).1.destination.isSome = true
        rw [(oneShotOrigin_shape s geo).1]
        exact hdest

lemma watchSuccess_ne_none (s : TrackState) (pos : Coord) (now : ℤ) (m : Bool)
    (hmi : s.mapInitialized = true → s.destination.isSome = true) :
    watchSuccess s pos now m ≠ none := by
  by_cases hc : recomputeCond s.lastPosition pos now s.lastRouteTimestamp
  · rw [watchSuccess_pos s pos now m hc]
    by_cases hb : (s.directionsReady && s.mapInitialized) = true
    · rw [if_pos hb]
      have hd : s.destination.isSome = true := by
        refine hmi ?_
        exact (Bool.and_eq_true _ _ ▸ hb).2
      exact computeRouteFrom_ne_none _ _ _ hd
    · rw [if_neg hb]
      simp
  · rw [watchSuccess_neg s pos now m hc]
    simp

lemma step_spec {s : TrackState} {e : Event} {s' : TrackState} {effs : List Eff}
    (h : step s e = some (s', effs)) (hw : WatchInv s)
    (hmi : s.mapInitialized = true → s.destination.isSome = true) :
    WatchInv s' ∧
    (s'.mapInitialized = true → s'.destination.isSome = true) ∧
    countStarts effs + watchBit s = countClears effs + watchBit s' := by
  cases e with
  | scriptLoaded =>
      simp only [step] at h
      by_cases hd : s.destination.isNone = true
      · rw [if_pos hd, Option.some.injEq, Prod.mk.injEq] at h
        obtain ⟨rfl, rfl⟩ := h
        exact ⟨WatchInv_of_preserved hw rfl rfl rfl, hmi,
          by simp [countStarts, countClears, watchBit]⟩
      · rw [if_neg hd, Option.some.injEq, Prod.mk.injEq] at h
        obtain ⟨rfl, rfl⟩ := h
        exact ⟨WatchInv_of_preserved hw rfl rfl rfl, hmi,
          by simp [countStarts, countClears, watchBit]⟩
  | initEffect geo m =>
      simp only [step] at h
      obtain ⟨i1, i2, i3, i4, i5, i6, i7, i8⟩ := initRun_shape h
      refine ⟨WatchInv_of_preserved hw i2 i3 i4, ?_, ?_⟩
      · intro hmi'
        rw [i1]
        rcases i6 hmi' with hold | hd
        · exact hmi hold
        · exact hd
      · rw [i7, i8, watchBit_congr i2]
  | toggleLive g n =>
      simp only [step, Option.some.injEq] at h
      have hs : s' = (toggleStep s g n).1 := by rw [h]
      have he : effs = (toggleStep s g n).2 := by rw [h]
      subst hs
      subst he
      obtain ⟨t1, t2, t3, t4, t5, t6⟩ := toggleStep_spec s g n hw
      refine ⟨t1, ?_, t2⟩
      intro hmi'
      rw [t3]
      exact hmi (t4 ▸ hmi')
  | sample pos now m =>
      simp only [step] at h
      by_cases hg : (s.liveTracking && s.watchId.isSome) = true
      · rw [if_pos hg] at h
        obtain ⟨w1, w2, w3, w4, w5, w6, w7, w8, w9, w10, w11⟩ := watchSuccess_shape h
        refine ⟨WatchInv_of_preserved hw w3 w4 w5, ?_, ?_⟩
        · intro hmi'
          rw [w1]
          exact hmi (w2 ▸ hmi')
        · rw [w9, w10, watchBit_congr w3]
      · rw [if_neg hg, Option.some.injEq, Prod.mk.injEq] at h
        obtain ⟨rfl, rfl⟩ := h
        exact ⟨hw, hmi, by simp [countStarts, countClears]⟩
  | streamFail =>
      simp only [step] at h
      by_cases hg : (s.liveTracking && s.watchId.isSome) = true
      · rw [if_pos hg, Option.some.injEq] at h
        have hs : s' = (failStep s).1 := by rw [h]
        have he : effs = (failStep s).2 := by rw [h]
        subst hs
        subst he
        obtain ⟨-, hgw⟩ := Bool.and_eq_true _ _ ▸ hg
        obtain ⟨f1, f2, f3, f4, f5, f6⟩ := failStep_spec s hw hgw
        refine ⟨f1, ?_, f2⟩
        intro hmi'
        rw [f3]
        exact hmi (f4 ▸ hmi')
      · rw [if_neg hg, Option.some.injEq, Prod.mk.injEq] at h
        obtain ⟨rfl, rfl⟩ := h
        exact ⟨hw, hmi, by simp [countStarts, countClears]⟩
  | routeResult res status =>
      simp only [step, Option.some.injEq, Prod.mk.injEq] at h
      obtain ⟨rfl, rfl⟩ := h
      obtain ⟨r1, r2, r3, r4, r5, r6, r7, r8, r9⟩ := routeCallback_fields s res status
      refine ⟨WatchInv_of_preserved hw r3 r4 r5, ?_, ?_⟩
      · intro hmi'
        rw [r1]
        exact hmi (r2 ▸ hmi')
      · rw [watchBit_congr r3]
        simp [countStarts, countClears]

lemma step_ne_none (s : TrackState) (e : Event)
    (hmi : s.mapInitialized = true → s.destination.isSome = true) :
    step s e ≠ none := by
  cases e with
  | scriptLoaded =>
      simp only [step]
      by_cases hd : s.destination.isNone = true
      · rw [if_pos hd]
        simp
      · rw [if_neg hd]
        simp
  | initEffect geo m => exact initRun_ne_none s geo m
  | toggleLive g n =>
      simp only [step]
      simp
  | sample pos now m =>
      simp only [step]
      by_cases hg : (s.liveTracking && s.watchId.isSome) = true
      · rw [if_pos hg]
        exact watchSuccess_ne_none s pos now m hmi
      · rw [if_neg hg]
        simp
  | streamFail =>
      simp only [step]
      by_cases hg : (s.liveTracking && s.watchId.isSome) = true
      · rw [if_pos hg]
        simp
      · rw [if_neg hg]
        simp
  | routeResult res status =>
      simp only [step]
      simp

lemma reachable_inv {dest0 origin0 : Option Coord} {s : TrackState}
    (h : Reachable dest0 origin0 s) :
    WatchInv s ∧ (s.mapInitialized = true → s.destination.isSome = true) := by
  induction h with
  | init =>
      refine ⟨⟨rfl, fun _ => rfl⟩, ?_⟩
      intro hmi
      simp [initState] at hmi
  | next hr hstep ih =>
      obtain ⟨hw', hmi', _⟩ := step_spec hstep ih.1 ih.2
      exact ⟨hw', hmi'⟩

lemma runTrace_balance {s : TrackState} {t : List Event} {s' : TrackState} {effs : List Eff}
    (h : runTrace s t = some (s', effs)) (hw : WatchInv s)
    (hmi : s.mapInitialized = true → s.destination.isSome = true) :
    WatchInv s' ∧
    countStarts effs + watchBit s = countClears effs + watchBit s' := by
  induction t generalizing s effs with
  | nil =>
      simp only [runTrace, Option.some.injEq, Prod.mk.injEq] at h
      obtain ⟨rfl, rfl⟩ := h
      exact ⟨hw, by simp [countStarts, countClears]⟩
  | cons e t ih =>
      simp only [runTrace] at h
      cases hst : step s e with
      | none =>
          simp only [hst] at h
          exact absurd h (by simp)
      | some r =>
          simp only [hst] at h
          cases hrt : runTrace r.1 t with
          | none =>
              simp only [hrt] at h
              exact absurd h (by simp)
          | some r2 =>
              simp only [hrt, Option.some.injEq, Prod.mk.injEq] at h
              obtain ⟨rfl, rfl⟩ := h
              obtain ⟨hw1, hmi1, hbal1⟩ :=
                step_spec (show step s e = some (r.1, r.2) by rw [hst]) hw hmi
              obtain ⟨hw2, hbal2⟩ :=
                ih (show runTrace r.1 t = some (r2.1, r2.2) by rw [hrt]) hw1 hmi1
              refine ⟨hw2, ?_⟩
              rw [countStarts_append, countClears_append]
              omega

/-- Claim C8: for all coordinate pairs A and B the haversine distance is
non-negative, and the distance from any coordinate to itself is exactly 0. -/
theorem c8_haversine_nonneg_self :
    (∀ a b : Coord, 0 ≤ haversineMeters a b) ∧ ∀ a : Coord, haversineMeters a a = 0 :=
  ⟨haversineMeters_nonneg, haversineMeters_self⟩

/-- Claim C4: when the directions callback receives a non-success status, the
previous `routeInfo` summary and the previously rendered route are unchanged,
`loading` is cleared, and the surfaced error names the provider status. -/
theorem c4_failure_preserves_route (s : TrackState) (res : DirectionsResult)
    (status : String) (h : status ≠ "OK") :
    (routeCallback s res status).routeInfo = s.routeInfo ∧
    (routeCallback s res status).renderedRoute = s.renderedRoute ∧
    (routeCallback s res status).error = some ("Could not compute route: " ++ status) ∧
    (routeCallback s res status).loading = false := by
  simp only [routeCallback]
  rw [if_neg h]
  exact ⟨rfl, rfl, rfl, rfl⟩

/-- Witness for C4 at the provider status `"ZERO_RESULTS"` on a fresh session
state. -/
theorem c4_failure_preserves_route_witness :
    (routeCallback (initState (some ⟨1, 2⟩) none) ⟨[]⟩ "ZERO_RESULTS").routeInfo =
      (initState (some ⟨1, 2⟩) none).routeInfo ∧
    (routeCallback (initState (some ⟨1, 2⟩) none) ⟨[]⟩ "ZERO_RESULTS").renderedRoute =
      (initState (some ⟨1, 2⟩) none).renderedRoute ∧
    (routeCallback (initState (some ⟨1, 2⟩) none) ⟨[]⟩ "ZERO_RESULTS").error =
      some ("Could not compute route: " ++ "ZERO_RESULTS") ∧
    (routeCallback (initState (some ⟨1, 2⟩) none) ⟨[]⟩ "ZERO_RESULTS").loading = false :=
  c4_failure_preserves_route _ _ _ (by decide)

/-- Claim C2 is false on the code: the directions-result callback contains no
comparison against `lastRouteComputedAt`.  Here a state whose `routeInfo` was
set by a newer request (summary "2.1 km"/"6 mins", timestamp 2000 staged) is
overwritten by an older request's late "OK" result. -/
theorem c2_no_guard_cex :
    (routeCallback
        { initState (some ⟨1, 2⟩) none with
            routeInfo := some ⟨some "2.1 km", some "6 mins"⟩
            lastRouteTimestamp := 2000 }
        ⟨[[⟨some "9.4 km", some "32 mins"⟩]]⟩ "OK").routeInfo =
      some ⟨some "9.4 km", some "32 mins"⟩ ∧
    (⟨some "9.4 km", some "32 mins"⟩ : RouteSummary) ≠ ⟨some "2.1 km", some "6 mins"⟩ := by
  constructor
  · rfl
  · decide

/-- Claim C2 (amended): the route-result callback performs no timestamp
comparison at all — it applies its result the same way whatever
`lastRouteComputedAt` holds, and never writes that ref; an older request
resolving after a newer one therefore does overwrite the newer result, a
documented, tolerated staleness. -/
theorem c2_callback_ignores_timestamp (s : TrackState) (res : DirectionsResult)
    (status : String) (t : ℤ) :
    (routeCallback s res status).lastRouteTimestamp = s.lastRouteTimestamp ∧
    routeCallback { s with lastRouteTimestamp := t } res status =
      { routeCallback s res status with lastRouteTimestamp := t } := by
  constructor
  · simp only [routeCallback]
    by_cases h : status = "OK"
    · rw [if_pos h]
      cases res.routes.head?.bind List.head? <;> rfl
    · rw [if_neg h]
  · simp only [routeCallback]
    by_cases h : status = "OK"
    · rw [if_pos h, if_pos h]
      cases res.routes.head?.bind List.head? <;> rfl
    · rw [if_neg h, if_neg h]

/-- Claim C9: with the Maps API available and a destination present,
`computeRouteFrom` issues exactly one request, for a driving route with no
alternatives (and the "bestguess" traffic model); and any request it ever
emits is a driving request with no alternatives. -/
theorem c9_single_driving_request (s : TrackState) (o d : Coord)
    (hdest : s.destination = some d) :
    computeRouteFrom s o true =
      some ({ s with directionsReady := true, rendererReady := true, loading := true },
        [Eff.routeReq
          { origin := o
            destination := d
            travelMode := TravelMode.driving
            provideRouteAlternatives := false
            trafficModel := "bestguess" }]) ∧
    (∀ m s' effs, computeRouteFrom s o m = some (s', effs) →
      ∀ q, Eff.routeReq q ∈ effs →
        q.travelMode = TravelMode.driving ∧ q.provideRouteAlternatives = false) := by
  constructor
  · rw [computeRouteFrom_of_dest s o true d hdest]
    rfl
  · intro m s' effs h q hq
    rw [computeRouteFrom_of_dest s o m d hdest] at h
    cases m
    · simp only [if_pos rfl, Option.some.injEq, Prod.mk.injEq] at h
      obtain ⟨rfl, rfl⟩ := h
      simp at hq
    · rw [if_neg (by simp : ¬(true = false))] at h
      simp only [Option.some.injEq, Prod.mk.injEq] at h
      obtain ⟨rfl, rfl⟩ := h
      simp only [List.mem_singleton, Eff.routeReq.injEq] at hq
      subst hq
      exact ⟨rfl, rfl⟩

/-- Witness for C9 on the spec's example pair: origin (12.9716, 77.5946),
destination (12.9352, 77.6245). -/
theorem c9_single_driving_request_witness :
    computeRouteFrom (initState (some ⟨12.9352, 77.6245⟩) none) ⟨12.9716, 77.5946⟩ true =
      some ({ initState (some ⟨12.9352, 77.6245⟩) none with
                directionsReady := true, rendererReady := true, loading := true },
        [Eff.routeReq
          { origin := ⟨12.9716, 77.5946⟩
            destination := ⟨12.9352, 77.6245⟩
            travelMode := TravelMode.driving
            provideRouteAlternatives := false
            trafficModel := "bestguess" }]) :=
  (c9_single_driving_request _ _ _ rfl).1

/-- Claim C10: `handleSubmit` issues the backend `report-case` request only
when an image file, a non-empty location, a non-empty contact phone and a
selected severity are all present; when any is missing it emits only the
first failing check's error toast and leaves the component state unchanged;
and the validation passes exactly when those four inputs are present. -/
theorem c10_submit_gate (st : ReportState) (env : SubmitEnv) :
    (hasBackendReq (handleSubmit st env).2 = true →
      st.hasImageFile = true ∧ st.form.location ≠ "" ∧
      st.form.contactPhone ≠ "" ∧ st.form.severity ≠ "") ∧
    (∀ msg, firstValidationError st = some msg →
      (handleSubmit st env).1 = st ∧ (handleSubmit st env).2 = [SubmitEff.toast msg]) ∧
    (firstValidationError st = none ↔
      st.hasImageFile = true ∧ st.form.location ≠ "" ∧
      st.form.contactPhone ≠ "" ∧ st.form.severity ≠ "") := by
  by_cases h1 : st.hasImageFile = false
  · refine ⟨?_, ?_, ?_⟩
    · intro hreq
      rw [handleSubmit, if_pos h1] at hreq
      simp [hasBackendReq, isBackendReq] at hreq
    · intro msg hm
      rw [firstValidationError, if_pos h1, Option.some.injEq] at hm
      subst hm
      rw [handleSubmit, if_pos h1]
      exact ⟨rfl, rfl⟩
    · rw [firstValidationError, if_pos h1]
      simp [h1]
  · by_cases h2 : st.form.location = ""
    · refine ⟨?_, ?_, ?_⟩
      · intro hreq
        rw [handleSubmit, if_neg h1, if_pos h2] at hreq
        simp [hasBackendReq, isBackendReq] at hreq
      · intro msg hm
        rw [firstValidationError, if_neg h1, if_pos h2, Option.some.injEq] at hm
        subst hm
        rw [handleSubmit, if_neg h1, if_pos h2]
        exact ⟨rfl, rfl⟩
      · rw [firstValidationError, if_neg h1, if_pos h2]
        simp [h2]
    · by_cases h3 : st.form.contactPhone = ""
      · refine ⟨?_, ?_, ?_⟩
        · intro hreq
          rw [handleSubmit, if_neg h1, if_neg h2, if_pos h3] at hreq
          simp [hasBackendReq, isBackendReq] at hreq
        · intro msg hm
          rw [firstValidationError, if_neg h1, if_neg h2, if_pos h3,
            Option.some.injEq] at hm
          subst hm
          rw [handleSubmit, if_neg h1, if_neg h2, if_pos h3]
          exact ⟨rfl, rfl⟩
        · rw [firstValidationError, if_neg h1, if_neg h2, if_pos h3]
          simp [h3]
      · by_cases h4 : st.form.severity = ""
        · refine ⟨?_, ?_, ?_⟩
          · intro hreq
            rw [handleSubmit, if_neg h1, if_neg h2, if_neg h3, if_pos h4] at hreq
            simp [hasBackendReq, isBackendReq] at hreq
          · intro msg hm
            rw [firstValidationError, if_neg h1, if_neg h2, if_neg h3, if_pos h4,
              Option.some.injEq] at hm
            subst hm
            rw [handleSubmit, if_neg h1, if_neg h2, if_neg h3, if_pos h4]
            exact ⟨rfl, rfl⟩
          · rw [firstValidationError, if_neg h1, if_neg h2, if_neg h3, if_pos h4]
            simp [h4]
        · refine ⟨?_, ?_, ?_⟩
          · intro _
            exact ⟨by simpa using h1, h2, h3, h4⟩
          · intro msg hm
            rw [firstValidationError, if_neg h1, if_neg h2, if_neg h3, if_neg h4] at hm
            exact absurd hm (by simp)
          · rw [firstValidationError, if_neg h1, if_neg h2, if_neg h3, if_neg h4]
            simp only [true_iff]
            exact ⟨by simpa using h1, h2, h3, h4⟩

/-- A concrete report-page state missing only the contact phone. -/
def reportStateNoPhone : ReportState where
  form :=
    { description := "Injured dog near the bridge"
      severity := "High"
      contactName := "Asha"
      contactPhone := ""
      location := "Bridge Road" }
  hasImageFile := true
  isSubmitting := false
  submitted := false
  isAnalyzing := false
  hasDetectionResult := false

/-- A concrete submit environment for the witness. -/
def plainSubmitEnv : SubmitEnv where
  coordMatch := none
  googleKeyConfigured := true
  geocodeOutcome := none
  imageReadOk := true
  backendConfigured := true
  backendOutcome := BackendOutcome.response true "pending_review" none

/-- Witness for C10: submitting with an empty contact phone emits only that
field's error toast and changes nothing. -/
theorem c10_submit_gate_witness :
    (handleSubmit reportStateNoPhone plainSubmitEnv).1 = reportStateNoPhone ∧
    (handleSubmit reportStateNoPhone plainSubmitEnv).2 =
      [SubmitEff.toast "Please provide a contact phone number"] :=
  (c10_submit_gate reportStateNoPhone plainSubmitEnv).2.1 _ (by decide)

/-- A fully initialized live-tracking state: map script loaded, map and
directions objects created, a watch active, last sample at `p`. -/
def trackReadyState (d p : Coord) : TrackState :=
  { initState (some d) none with
      mapReady := true
      mapInitialized := true
      directionsReady := true
      rendererReady := true
      liveTracking := true
      watchId := some 1
      hasCleanup := true
      lastPosition := some p }

/-- A live-tracking state in which the user enabled tracking before the map
finished initializing: a watch is active but the map and directions objects
do not exist yet. -/
def trackNoMapState (d p : Coord) : TrackState :=
  { initState (some d) none with
      liveTracking := true
      watchId := some 1
      hasCleanup := true
      lastPosition := some p }

/-- Claim C1 as written is false on the code: here the time criterion holds
(20000 ms elapsed, threshold 10000), yet no route computation is triggered,
because the handler additionally requires `directionsServiceRef.current` and
`googleMapRef.current` to be non-null and the map has not initialized. -/
theorem c1_trigger_iff_cex :
    recomputeCond (trackNoMapState ⟨1, 2⟩ ⟨0, 0⟩).lastPosition ⟨0, 0⟩ 20000
      (trackNoMapState ⟨1, 2⟩ ⟨0, 0⟩).lastRouteTimestamp ∧
    countRouteReqs (sampleEffs (trackNoMapState ⟨1, 2⟩ ⟨0, 0⟩) ⟨0, 0⟩ 20000 true) = 0 := by
  have hc : recomputeCond (trackNoMapState ⟨1, 2⟩ ⟨0, 0⟩).lastPosition ⟨0, 0⟩ 20000
      (trackNoMapState ⟨1, 2⟩ ⟨0, 0⟩).lastRouteTimestamp := by
    show haversineMeters ⟨0, 0⟩ ⟨0, 0⟩ > 20 ∨ (20000 : ℤ) - 0 > 10000
    right
    norm_num
  refine ⟨hc, ?_⟩
  rw [sampleEffs, watchSuccess_pos _ _ _ _ hc]
  rw [if_neg (by simp [trackNoMapState, initState] : ¬((trackNoMapState ⟨1, 2⟩ ⟨0, 0⟩).directionsReady && (trackNoMapState ⟨1, 2⟩ ⟨0, 0⟩).mapInitialized) = true)]
  rfl

lemma watchSuccess_pos_ready (s : TrackState) (pos d : Coord) (now : ℤ)
    (hc : recomputeCond s.lastPosition pos now s.lastRouteTimestamp)
    (hdr : s.directionsReady = true) (hmi : s.mapInitialized = true)
    (hdest : s.destination = some d) :
    watchSuccess s pos now true =
      some ({ s with origin := some pos, lastPosition := some pos,
                     lastRouteTimestamp := now, directionsReady := true,
                     rendererReady := true, loading := true,
                     currentMarker := s.currentMarker || true },
        [Eff.routeReq
          { origin := pos
            destination := d
            travelMode := TravelMode.driving
            provideRouteAlternatives := false
            trafficModel := "bestguess" }]) := by
  rw [watchSuccess_pos s pos now true hc]
  rw [if_pos (by rw [hdr, hmi]; rfl : (s.directionsReady && s.mapInitialized) = true)]
  simp only [computeRouteFrom]
  rw [hdest]
  rw [if_neg (by simp : ¬(true = false))]

/-- Claim C1 (amended): once the map and directions service exist (the normal
state of an initialized tracking screen, with the Maps API available and a
destination present), a sample after the first triggers exactly one route
computation if and only if the haversine distance from the previous sample
exceeds 20 m or more than 10000 ms elapsed since `lastRouteComputedAt`; when
neither condition holds, no recomputation fires. -/
theorem c1_trigger_iff_amended (s : TrackState) (p pos d : Coord) (now : ℤ)
    (hp : s.lastPosition = some p) (hdr : s.directionsReady = true)
    (hmi : s.mapInitialized = true) (hdest : s.destination = some d) :
    countRouteReqs (sampleEffs s pos now true) = 1 ↔
      recomputeCond (some p) pos now s.lastRouteTimestamp := by
  by_cases hc : recomputeCond s.lastPosition pos now s.lastRouteTimestamp
  · rw [sampleEffs, watchSuccess_pos_ready s pos d now hc hdr hmi hdest]
    have hc' : recomputeCond (some p) pos now s.lastRouteTimestamp := by
      rw [← hp]
      exact hc
    simp [countRouteReqs, isRouteReqEff, hc']
  · rw [sampleEffs, watchSuccess_neg _ _ _ _ hc]
    have hc' : ¬ recomputeCond (some p) pos now s.lastRouteTimestamp := by
      rw [← hp]
      exact hc
    simp [countRouteReqs, hc']

/-- Witness for the amended C1 on a ready state: the previous and new sample
coincide (distance 0) but 20000 ms have elapsed, so exactly one request
fires. -/
theorem c1_trigger_iff_amended_witness :
    countRouteReqs (sampleEffs (trackReadyState ⟨1, 2⟩ ⟨0, 0⟩) ⟨0, 0⟩ 20000 true) = 1 ↔
      recomputeCond (some ⟨0, 0⟩) ⟨0, 0⟩ 20000
        (trackReadyState ⟨1, 2⟩ ⟨0, 0⟩).lastRouteTimestamp :=
  c1_trigger_iff_amended (trackReadyState ⟨1, 2⟩ ⟨0, 0⟩) ⟨0, 0⟩ ⟨0, 0⟩ ⟨1, 2⟩ 20000
    rfl rfl rfl rfl

lemma sampleEffs_no_retrigger (x : TrackState) (pos pos' : Coord) (now now' : ℤ) (m' : Bool)
    (hlp : x.lastPosition = some pos) (hlt : x.lastRouteTimestamp = now)
    (hdist : ¬ haversineMeters pos pos' > 20) (htime : ¬ now' - now > 10000) :
    countRouteReqs (sampleEffs x pos' now' m') = 0 := by
  have hnc : ¬ recomputeCond x.lastPosition pos' now' x.lastRouteTimestamp := by
    rw [hlp, hlt]
    rintro (hd | ht)
    · exact hdist hd
    · exact htime ht
  rw [sampleEffs, watchSuccess_neg _ _ _ _ hnc]
  simp [countRouteReqs]

/-- Claim C5: when a sample triggers a recomputation on an initialized
tracking screen, `lastRouteComputedAt` is stamped with the sample's time in
the very same handler run — before any directions result arrives — the
directions callback never changes it, and a following sample that moves at
most 20 m and arrives within 10000 ms of that stamp triggers nothing. -/
theorem c5_timestamp_staged (s : TrackState) (pos pos' d : Coord) (now now' : ℤ)
    (res : DirectionsResult) (status : String) (m' : Bool)
    (hdr : s.directionsReady = true) (hmi : s.mapInitialized = true)
    (hdest : s.destination = some d)
    (hc : recomputeCond s.lastPosition pos now s.lastRouteTimestamp)
    (hdist : ¬ haversineMeters pos pos' > 20)
    (htime : ¬ now' - now > 10000) :
    (sampleNext s pos now true).lastRouteTimestamp = now ∧
    (routeCallback (sampleNext s pos now true) res status).lastRouteTimestamp = now ∧
    countRouteReqs
      (sampleEffs (routeCallback (sampleNext s pos now true) res status) pos' now' m') = 0 := by
  have h1 := watchSuccess_pos_ready s pos d now hc hdr hmi hdest
  refine ⟨?_, ?_, ?_⟩
  · rw [sampleNext, h1]
  · rw [sampleNext, h1]
    exact (routeCallback_fields _ res status).2.2.2.2.2.2.1
  · rw [sampleNext, h1]
    refine sampleEffs_no_retrigger _ pos pos' now now' m' ?_ ?_ hdist htime
    · exact (routeCallback_fields _ res status).2.2.2.2.2.2.2.1
    · exact (routeCallback_fields _ res status).2.2.2.2.2.2.1

/-- Witness for C5: the trigger at 20000 ms (time criterion) stamps 20000;
a 0 m move 5000 ms later does not re-trigger, even after an intervening
directions result is applied. -/
theorem c5_timestamp_staged_witness :
    (sampleNext (trackReadyState ⟨1, 2⟩ ⟨0, 0⟩) ⟨0, 0⟩ 20000 true).lastRouteTimestamp = 20000 ∧
    (routeCallback (sampleNext (trackReadyState ⟨1, 2⟩ ⟨0, 0⟩) ⟨0, 0⟩ 20000 true)
        ⟨[]⟩ "OK").lastRouteTimestamp = 20000 ∧
    countRouteReqs
      (sampleEffs (routeCallback (sampleNext (trackReadyState ⟨1, 2⟩ ⟨0, 0⟩) ⟨0, 0⟩ 20000 true)
        ⟨[]⟩ "OK") ⟨0, 0⟩ 25000 true) = 0 :=
  c5_timestamp_staged (trackReadyState ⟨1, 2⟩ ⟨0, 0⟩) ⟨0, 0⟩ ⟨0, 0⟩ ⟨1, 2⟩ 20000 25000
    ⟨[]⟩ "OK" true rfl rfl rfl
    (Or.inr (by norm_num [trackReadyState, initState]))
    (by rw [haversineMeters_self]; norm_num)
    (by norm_num)

/-- Claim C7: with the map ready, a destination present and no origin, the
`initialize` effect requests a single position with an 8-second timeout.  On
success it sets the origin, and the effect re-run that this origin change
schedules immediately issues the driving-route request from it.  On failure
it leaves the origin unset, issues no route request, and the session shows
the destination-only marker. -/
theorem c7_one_shot_origin (s : TrackState) (c d : Coord) (g' : GeoOutcome)
    (hmr : s.mapReady = true) (hdest : s.destination = some d) (ho : s.origin = none) :
    (initNext s (GeoOutcome.success c) true).origin = some c ∧
    initEffs s (GeoOutcome.success c) true = [Eff.geoOneShot 8000] ∧
    initEffs (initNext s (GeoOutcome.success c) true) g' true =
      [Eff.routeReq
        { origin := c
          destination := d
          travelMode := TravelMode.driving
          provideRouteAlternatives := false
          trafficModel := "bestguess" }] ∧
    (initNext s GeoOutcome.failed true).origin = none ∧
    initEffs s GeoOutcome.failed true = [Eff.geoOneShot 8000] ∧
    (initNext s GeoOutcome.failed true).destMarker = true ∧
    countRouteReqs (initEffs s GeoOutcome.failed true) = 0 := by
  refine ⟨?_, ?_, ?_, ?_, ?_, ?_, ?_⟩ <;> cases g' <;>
    simp [initNext, initEffs, initRun, oneShotOrigin, computeRouteFrom,
      countRouteReqs, isRouteReqEff, hmr, hdest, ho]

/-- Witness for C7 on a concrete ready session without an origin. -/
theorem c7_one_shot_origin_witness :
    (initNext { initState (some ⟨1, 2⟩) none with mapReady := true }
        (GeoOutcome.success ⟨3, 4⟩) true).origin = some ⟨3, 4⟩ ∧
    initEffs { initState (some ⟨1, 2⟩) none with mapReady := true }
        (GeoOutcome.success ⟨3, 4⟩) true = [Eff.geoOneShot 8000] ∧
    initEffs (initNext { initState (some ⟨1, 2⟩) none with mapReady := true }
        (GeoOutcome.success ⟨3, 4⟩) true) GeoOutcome.unavailable true =
      [Eff.routeReq
        { origin := ⟨3, 4⟩
          destination := ⟨1, 2⟩
          travelMode := TravelMode.driving
          provideRouteAlternatives := false
          trafficModel := "bestguess" }] ∧
    (initNext { initState (some ⟨1, 2⟩) none with mapReady := true }
        GeoOutcome.failed true).origin = none ∧
    initEffs { initState (some ⟨1, 2⟩) none with mapReady := true }
        GeoOutcome.failed true = [Eff.geoOneShot 8000] ∧
    (initNext { initState (some ⟨1, 2⟩) none with mapReady := true }
        GeoOutcome.failed true).destMarker = true ∧
    countRouteReqs (initEffs { initState (some ⟨1, 2⟩) none with mapReady := true }
        GeoOutcome.failed true) = 0 :=
  c7_one_shot_origin { initState (some ⟨1, 2⟩) none with mapReady := true }
    ⟨3, 4⟩ ⟨1, 2⟩ GeoOutcome.unavailable rfl rfl rfl

lemma not_mem_routeReq_of_count_zero {l : List Eff} (h : countRouteReqs l = 0)
    (q : RouteRequest) : Eff.routeReq q ∉ l := by
  intro hq
  rw [countRouteReqs, List.length_eq_zero, List.filter_eq_nil_iff] at h
  exact h _ hq rfl

lemma initRun_reqs {s : TrackState} {geo : GeoOutcome} {m : Bool}
    {s' : TrackState} {effs : List Eff}
    (h : initRun s geo m = some (s', effs)) :
    ∀ q, Eff.routeReq q ∈ effs → s.destination = some q.destination := by
  intro q hq
  unfold initRun at h
  by_cases hg : (!s.mapReady || s.destination.isNone) = true
  · rw [if_pos hg, Option.some.injEq, Prod.mk.injEq] at h
    obtain ⟨rfl, rfl⟩ := h
    simp at hq
  · rw [if_neg hg] at h
    obtain ⟨o1, o2, o3, o4, o5, o6, o7, o8, o9⟩ := oneShotOrigin_shape s geo
    by_cases hm : m = false
    · rw [if_pos hm, Option.some.injEq, Prod.mk.injEq] at h
      obtain ⟨rfl, rfl⟩ := h
      exact absurd hq (not_mem_routeReq_of_count_zero o9 q)
    · rw [if_neg hm] at h
      cases hoo : s.origin
      · rw [hoo] at h
        simp only [Option.some.injEq, Prod.mk.injEq] at h
        obtain ⟨rfl, rfl⟩ := h
        exact absurd hq (not_mem_routeReq_of_count_zero o9 q)
      · rw [hoo] at h
        rw [Option.map_eq_some'] at h
        obtain ⟨a, ha, hae⟩ := h
        obtain ⟨c1, c2, c3, c4, c5, c6, c7, c8, c9, c10, c11, c12⟩ := computeRouteFrom_shape ha
        obtain ⟨rfl, rfl⟩ := Prod.mk.injEq .. ▸ hae
        rcases List.mem_append.mp hq with hql | hqr
        · exact absurd hql (not_mem_routeReq_of_count_zero o9 q)
        · rw [← o1]
          exact (c12 q hqr).1

lemma step_req_dest {s : TrackState} {e : Event} {s' : TrackState} {effs : List Eff}
    (h : step s e = some (s', effs)) (hw : WatchInv s)
    (q : RouteRequest) (hq : Eff.routeReq q ∈ effs) :
    s.destination = some q.destination := by
  cases e with
  | scriptLoaded =>
      simp only [step] at h
      by_cases hd : s.destination.isNone = true
      · rw [if_pos hd, Option.some.injEq, Prod.mk.injEq] at h
        obtain ⟨rfl, rfl⟩ := h
        simp at hq
      · rw [if_neg hd, Option.some.injEq, Prod.mk.injEq] at h
        obtain ⟨rfl, rfl⟩ := h
        simp at hq
  | initEffect geo m =>
      simp only [step] at h
      exact initRun_reqs h q hq
  | toggleLive g n =>
      simp only [step, Option.some.injEq] at h
      have he : effs = (toggleStep s g n).2 := by rw [h]
      subst he
      exact absurd hq (not_mem_routeReq_of_count_zero (toggleStep_spec s g n hw).2.2.2.2.2 q)
  | sample pos now m =>
      simp only [step] at h
      by_cases hg : (s.liveTracking && s.watchId.isSome) = true
      · rw [if_pos hg] at h
        exact ((watchSuccess_shape h).2.2.2.2.2.2.2.2.2.2 q hq).1
      · rw [if_neg hg, Option.some.injEq, Prod.mk.injEq] at h
        obtain ⟨rfl, rfl⟩ := h
        simp at hq
  | streamFail =>
      simp only [step] at h
      by_cases hg : (s.liveTracking && s.watchId.isSome) = true
      · rw [if_pos hg, Option.some.injEq] at h
        have he : effs = (failStep s).2 := by rw [h]
        subst he
        obtain ⟨-, hgw⟩ := Bool.and_eq_true _ _ ▸ hg
        exact absurd hq (not_mem_routeReq_of_count_zero (failStep_spec s hw hgw).2.2.2.2.2 q)
      · rw [if_neg hg, Option.some.injEq, Prod.mk.injEq] at h
        obtain ⟨rfl, rfl⟩ := h
        simp at hq
  | routeResult res status =>
      simp only [step, Option.some.injEq, Prod.mk.injEq] at h
      obtain ⟨rfl, rfl⟩ := h
      simp at hq

/-- Claim C3: in every reachable tracking-session state, a step never hits
the `destination!` null dereference inside `computeRouteFrom` (`step` never
crashes), and every directions request it emits carries the session's known
destination coordinate (and, by construction of the request, a concrete
origin coordinate). -/
theorem c3_route_safety {dest0 origin0 : Option Coord} {s : TrackState}
    (h : Reachable dest0 origin0 s) (e : Event) :
    step s e ≠ none ∧
    ∀ s' effs q, step s e = some (s', effs) → Eff.routeReq q ∈ effs →
      s.destination = some q.destination := by
  obtain ⟨hw, hmi⟩ := reachable_inv h
  exact ⟨step_ne_none s e hmi, fun s' effs q hst hq => step_req_dest hst hw q hq⟩

/-- Witness for C3 at the mount state with a destination, on a toggle
event. -/
theorem c3_route_safety_witness :
    step (initState (some ⟨1, 2⟩) none) (Event.toggleLive true 3) ≠ none ∧
    ∀ s' effs q,
      step (initState (some ⟨1, 2⟩) none) (Event.toggleLive true 3) = some (s', effs) →
      Eff.routeReq q ∈ effs →
      (initState (some ⟨1, 2⟩) none).destination = some q.destination :=
  c3_route_safety Reachable.init (Event.toggleLive true 3)

/-- Claim C6: over any event trace from mount (toggles, stream errors,
samples, everything) followed by component teardown, the number of
`clearWatch` calls equals the number of `watchPosition` calls, and no watch
subscription remains active afterwards. -/
theorem c6_watch_balanced (dest0 origin0 : Option Coord) (t : List Event)
    (s : TrackState) (effs : List Eff)
    (h : runTrace (initState dest0 origin0) t = some (s, effs)) :
    countStarts (effs ++ (unmountCleanup s).2) =
      countClears (effs ++ (unmountCleanup s).2) ∧
    (unmountCleanup s).1.watchId = none := by
  have hw0 : WatchInv (initState dest0 origin0) := ⟨rfl, fun _ => rfl⟩
  have hmi0 : (initState dest0 origin0).mapInitialized = true →
      (initState dest0 origin0).destination.isSome = true := by
    intro hm
    simp [initState] at hm
  obtain ⟨hw, hbal⟩ := runTrace_balance h hw0 hmi0
  have hb0 : watchBit (initState dest0 origin0) = 0 := rfl
  rw [hb0] at hbal
  unfold unmountCleanup
  obtain ⟨hcu, hcs, hcc, _⟩ := cleanupWatch_spec s
  by_cases hc : s.hasCleanup = true
  · rw [if_pos hc]
    refine ⟨?_, ?_⟩
    · rw [countStarts_append, countClears_append, hcs, hcc]
      omega
    · rw [hcu]
  · rw [if_neg hc]
    have hwid0 : s.watchId.isSome = false := by
      rw [← hw.1]
      simpa using hc
    have hbit : watchBit s = 0 := by
      unfold watchBit
      rw [hwid0]
      rfl
    refine ⟨?_, ?_⟩
    · show countStarts (effs ++ []) = countClears (effs ++ [])
      rw [List.append_nil]
      rw [hbit] at hbal
      omega
    · cases hwid : s.watchId
      · rfl
      · rw [hwid] at hwid0
        simp at hwid0

/-- Witness for C6: enable then disable live tracking; one `watchPosition`,
one `clearWatch`, nothing active at teardown. -/
theorem c6_watch_balanced_witness :
    countStarts ([Eff.watchStart 7, Eff.clearWatch 7] ++
        (unmountCleanup (initState none none)).2) =
      countClears ([Eff.watchStart 7, Eff.clearWatch 7] ++
        (unmountCleanup (initState none none)).2) ∧
    (unmountCleanup (initState none none)).1.watchId = none :=
  c6_watch_balanced none none [Event.toggleLive true 7, Event.toggleLive true 7]
    (initState none none) [Eff.watchStart 7, Eff.clearWatch 7]
    (by simp [runTrace, step, toggleStep, effectCycle, watchBody, cleanupWatch, initState])
